import Mathlib

/-! Verification of the gmail-automation email tooling.

The embedding models the Python source of src/gmail_crew_ai: string
primitives used by the tools, the EmailAnalysisTool classifier
(email_tools.py), the SaveDraftTool subject / threading / save flow and the
header and body decoding helpers (gmail_tools.py, gmail_reader.py).
External library calls (email.utils.parsedate_to_datetime, bytes.decode,
BeautifulSoup, the IMAP server) are modelled as explicit function
parameters; a parameter returning none or an error models the library call
raising an exception at that input, which the surrounding source code
either catches or propagates exactly as the Python does. -/

/-- Boolean test that the first character list is a prefix of the second,
modelling Python startswith on the underlying characters. -/
def listStartsWith : List Char → List Char → Bool
  | [], _ => true
  | _ :: _, [] => false
  | p :: ps, c :: cs => (p == c) && listStartsWith ps cs

/-- Boolean substring test on character lists, modelling the Python in
operator on strings. -/
def listContains (needle : List Char) : List Char → Bool
  | [] => listStartsWith needle []
  | c :: cs => listStartsWith needle (c :: cs) || listContains needle cs

/-- Python membership test needle in haystack for strings. -/
def pyIn (needle hay : String) : Bool := listContains needle.data hay.data

/-- Python str.lower, ASCII model. -/
def lowerStr (s : String) : String := ⟨s.data.map Char.toLower⟩

/-- Python s.startswith(p). -/
def startsWithPy (s p : String) : Bool := listStartsWith p.data s.data

/-- Python s.endswith(p). -/
def endsWithPy (s p : String) : Bool := listStartsWith p.data.reverse s.data.reverse

/-- Python default whitespace characters for str.strip and str.split. -/
def isPySpace (c : Char) : Bool :=
  c == ' ' || c == '\t' || c == '\n' || c == '\r' || c == '\x0b' || c == '\x0c'

/-- Python str.strip() with no arguments. -/
def stripStr (s : String) : String :=
  ⟨((s.data.dropWhile isPySpace).reverse.dropWhile isPySpace).reverse⟩

/-- Helper for pySplitWs: accumulates the current word in reverse. -/
def splitWsAux : List Char → List Char → List String
  | [], acc => if acc.isEmpty then [] else [(⟨acc.reverse⟩ : String)]
  | c :: cs, acc =>
    if isPySpace c then
      if acc.isEmpty then splitWsAux cs [] else (⟨acc.reverse⟩ : String) :: splitWsAux cs []
    else splitWsAux cs (c :: acc)

/-- Python str.split() with no arguments: split on whitespace runs, dropping
empty pieces. -/
def pySplitWs (s : String) : List String := splitWsAux s.data []

/-- Python truthiness of an optional string: a missing value, None and the
empty string are falsy. -/
def strTruthy : Option String → Bool
  | none => false
  | some s => !s.isEmpty

/-- Join a list of strings with single spaces, Python " ".join. -/
def joinSpace (l : List String) : String := String.intercalate " " l

/-- String append distributes over the underlying character data. -/
theorem data_append (a b : String) : (a ++ b).data = a.data ++ b.data := by
  cases a; cases b; rfl

/-- Prepending the reply prefix always makes the lowered subject start with
the lowered reply prefix. -/
theorem startsWith_re_prepend (s : String) :
    startsWithPy (lowerStr ("Re: " ++ s)) "re:" = true := by
  unfold startsWithPy lowerStr
  rw [data_append]
  have h1 : "Re: ".data = ['R', 'e', ':', ' '] := rfl
  have h2 : "re:".data = ['r', 'e', ':'] := rfl
  rw [h1, h2]
  simp [listStartsWith]

/-- Appending a string ending in a newline makes endsWithPy with a newline
return true. -/
theorem endsWith_newline_append (s : String) :
    endsWithPy (s ++ "\n") "\n" = true := by
  unfold endsWithPy
  rw [data_append]
  have h1 : "\n".data = ['\n'] := rfl
  rw [h1]
  simp [listStartsWith]

/-! EmailAnalysisTool classifier, from email_tools.py. -/

/-- EmailAnalysisTool no-response indicator list (email_tools.py lines 70 to 74). -/
def no_response_indicators : List String :=
  ["no-reply", "noreply", "do-not-reply", "newsletter", "automated",
   "marketing", "promotion", "unsubscribe", "notification only",
   "for your information", "fyi"]

/-- EmailAnalysisTool response-required indicator list (email_tools.py lines 77 to 81). -/
def response_indicators : List String :=
  ["please", "request", "need", "help", "question", "?",
   "meeting", "schedule", "urgent", "asap", "respond",
   "reply", "feedback", "approval", "confirm"]

/-- EmailAnalysisTool needs-response decision (email_tools.py lines 66 to 98):
checks no-response indicators on the lowered combined text first, then the
ServiceNow flag, then response indicators, defaulting to true. -/
def needs_response (subject sender body : String) (is_servicenow : Bool) : Bool :=
  let text_to_check := lowerStr (subject ++ " " ++ sender ++ " " ++ body)
  if no_response_indicators.any (fun i => pyIn i text_to_check) then false
  else if is_servicenow then true
  else if response_indicators.any (fun i => pyIn i text_to_check) then true
  else true

/-- C1: whenever the combined subject, sender and body text contains a
no-response indicator, the classifier returns needs_response = false,
whatever the remaining text (including response-solicitation phrases) and
the ServiceNow domain flag say: the no-response override has top precedence. -/
theorem C1_no_response_override (subject sender body : String) (is_servicenow : Bool)
    (h : no_response_indicators.any
      (fun i => pyIn i (lowerStr (subject ++ " " ++ sender ++ " " ++ body))) = true) :
    needs_response subject sender body is_servicenow = false := by
  unfold needs_response
  simp [h]

/-- C1 witness: a concrete message with a no-reply sender, a please-respond
body and the ServiceNow flag set still yields needs_response = false. -/
theorem C1_no_response_override_witness :
    no_response_indicators.any
      (fun i => pyIn i (lowerStr ("Hi" ++ " " ++ "no-reply@x.com" ++ " " ++ "please respond"))) = true ∧
    needs_response "Hi" "no-reply@x.com" "please respond" true = false :=
  ⟨by decide, C1_no_response_override "Hi" "no-reply@x.com" "please respond" true (by decide)⟩

/-! Thread data model used by SaveDraftTool (gmail_tools.py). Dictionaries
are modelled as structures of optional fields; a missing key or a None
value is none. -/

/-- One entry of thread_messages as consumed by SaveDraftTool. -/
structure ThreadMsg where
  subject : Option String
  date : Option String
  message_id : Option String

/-- The thread_info dictionary passed to SaveDraftTool. -/
structure ThreadInfo where
  thread_subject : Option String
  thread_messages : Option (List ThreadMsg)
  references : Option String
  in_reply_to : Option String
  message_id : Option String
  email_id : Option String
  date : Option String

/-- Scan of thread_messages for the first truthy subject
(gmail_tools.py lines 498 to 502). -/
def findFirstSubject : List ThreadMsg → Option String
  | [] => none
  | m :: ms => if strTruthy m.subject then some (m.subject.getD "") else findFirstSubject ms

/-- Thread subject selection in SaveDraftTool (gmail_tools.py lines 494 to 502):
thread_info.get with or None, falling back to the first truthy subject
among thread_messages. -/
def computeThreadSubject (t : ThreadInfo) : Option String :=
  if strTruthy t.thread_subject then some (t.thread_subject.getD "")
  else
    match t.thread_messages with
    | some msgs => findFirstSubject msgs
    | none => none

/-- Subject handling in SaveDraftTool (gmail_tools.py lines 493 to 517):
an empty or whitespace-only caller subject is replaced by the stripped
thread subject, by Re: No Subject when replying without one, or by
No Subject; a reply subject not already starting with a case-insensitive
reply prefix gets Re: prepended. -/
def computeSubject (tOpt : Option ThreadInfo) (subject : String) : String :=
  let thread_subject : Option String :=
    match tOpt with
    | some t => computeThreadSubject t
    | none => none
  let subject1 :=
    if (stripStr subject).isEmpty then
      match thread_subject with
      | some ts =>
        if (stripStr ts).isEmpty then
          (if tOpt.isSome then "Re: No Subject" else "No Subject")
        else stripStr ts
      | none => if tOpt.isSome then "Re: No Subject" else "No Subject"
    else subject
  if tOpt.isSome && !(startsWithPy (lowerStr subject1) "re:") then "Re: " ++ subject1
  else subject1

/-- A subject, replying or not, either already starts with the reply prefix
or has it prepended; the result always starts with the lowered prefix. -/
theorem re_final (s1 : String) :
    startsWithPy
      (lowerStr (if !(startsWithPy (lowerStr s1) "re:") then "Re: " ++ s1 else s1))
      "re:" = true := by
  by_cases h : startsWithPy (lowerStr s1) "re:" = true
  · simp [h]
  · simp only [Bool.not_eq_true] at h
    simp [h, startsWith_re_prepend]

/-- Concrete thread context whose thread_subject is Status. -/
def tStatus : ThreadInfo := ⟨some "Status", none, none, none, none, none, none⟩

/-- C4: with thread context supplying thread subject Status and an empty
caller subject the draft subject is Re: Status; with no thread context and
an empty subject it is No Subject; whenever thread context is present the
final subject starts with a case-insensitive reply prefix; and a nonblank
subject already carrying the prefix is left unchanged, so the rule never
stacks a second prefix. -/
theorem C4_subject_rule :
    computeSubject (some tStatus) "" = "Re: Status" ∧
    computeSubject none "" = "No Subject" ∧
    (∀ (t : ThreadInfo) (s : String),
      startsWithPy (lowerStr (computeSubject (some t) s)) "re:" = true) ∧
    (∀ (t : ThreadInfo) (s : String), (stripStr s).isEmpty = false →
      startsWithPy (lowerStr s) "re:" = true → computeSubject (some t) s = s) := by
  refine ⟨by decide, by decide, ?_, ?_⟩
  · intro t s
    unfold computeSubject
    simp only [Option.isSome_some, Bool.true_and]
    exact re_final _
  · intro t s h1 h2
    unfold computeSubject
    simp [h1, h2]

/-- C4 witness: the general conjuncts applied at concrete inputs, with the
hypotheses of the no-stacking conjunct discharged concretely. -/
theorem C4_subject_rule_witness :
    (stripStr "Re: Hello").isEmpty = false ∧
    startsWithPy (lowerStr "Re: Hello") "re:" = true ∧
    computeSubject (some tStatus) "Re: Hello" = "Re: Hello" ∧
    startsWithPy (lowerStr (computeSubject (some tStatus) "Hello")) "re:" = true :=
  ⟨by decide, by decide,
   C4_subject_rule.2.2.2 tStatus "Re: Hello" (by decide) (by decide),
   C4_subject_rule.2.2.1 tStatus "Hello"⟩

/-! Date keys and the stable sorts used on thread messages. The function
parameter parse models email.utils.parsedate_to_datetime, with none at
exactly the inputs where CPython raises; datetimes are modelled as Nat. -/

/-- Sort key of one thread message (the key lambdas at gmail_tools.py
lines 179 to 181, 439 and 873 to 875): a falsy date gives datetime.min
(modelled as 0), a truthy date is parsed, shifting parsed values by one so
they stay above the minimum; the parse raising is an error value. -/
def dateKey (parse : String → Option Nat) (m : ThreadMsg) : Except Unit Nat :=
  if strTruthy m.date then
    match parse (m.date.getD "") with
    | some n => Except.ok (n + 1)
    | none => Except.error ()
  else Except.ok 0

/-- Total value of dateKey, 0 when the key raises. -/
def keyValD (parse : String → Option Nat) (m : ThreadMsg) : Nat :=
  match dateKey parse m with
  | Except.ok k => k
  | Except.error _ => 0

/-- Key decoration of a message list in order, stopping at the first
raising key, as CPython list.sort does before comparing. -/
def mapKeys (parse : String → Option Nat) : List ThreadMsg → Except Unit (List (ThreadMsg × Nat))
  | [] => Except.ok []
  | m :: ms =>
    match dateKey parse m with
    | Except.error e => Except.error e
    | Except.ok k => (mapKeys parse ms).map (fun rest => (m, k) :: rest)

/-- Stable descending insertion: the new element goes after all elements
with a greater or equal key. -/
def insertDesc (x : α × Nat) : List (α × Nat) → List (α × Nat)
  | [] => [x]
  | q :: qs => if x.2 ≤ q.2 then q :: insertDesc x qs else x :: q :: qs

/-- Stable descending sort by key, modelling Python sorted with
reverse=True: equal keys keep their original relative order. -/
def pySortDesc (l : List (α × Nat)) : List (α × Nat) :=
  l.foldl (fun acc x => insertDesc x acc) []

/-- Stable ascending insertion: the new element goes after all elements
with a smaller or equal key. -/
def insertAsc (x : α × Nat) : List (α × Nat) → List (α × Nat)
  | [] => [x]
  | q :: qs => if q.2 ≤ x.2 then q :: insertAsc x qs else x :: q :: qs

/-- Stable ascending sort by key, modelling Python list.sort. -/
def pySortAsc (l : List (α × Nat)) : List (α × Nat) :=
  l.foldl (fun acc x => insertAsc x acc) []

/-- Thread message sort of GmailToolBase and GetThreadHistoryTool
(gmail_tools.py lines 178 to 182 and 872 to 875): decorate with date keys,
then sort ascending; a raising key aborts the whole sort. -/
def sortThreadMessages (parse : String → Option Nat) (msgs : List ThreadMsg) :
    Except Unit (List ThreadMsg) :=
  (mapKeys parse msgs).map (fun pairs => (pySortAsc pairs).map Prod.fst)

/-- Key of the first element, 0 for the empty list. -/
def headKey : List (α × Nat) → Nat
  | [] => 0
  | p :: _ => p.2

theorem insertDesc_length (x : α × Nat) (l : List (α × Nat)) :
    (insertDesc x l).length = l.length + 1 := by
  induction l with
  | nil => rfl
  | cons q qs ih =>
    unfold insertDesc
    by_cases h : x.2 ≤ q.2 <;> simp [h, ih]

theorem insertDesc_mem {y x : α × Nat} {l : List (α × Nat)}
    (h : y ∈ insertDesc x l) : y = x ∨ y ∈ l := by
  induction l with
  | nil => simpa [insertDesc] using h
  | cons q qs ih =>
    unfold insertDesc at h
    by_cases hc : x.2 ≤ q.2
    · simp only [hc, if_true, List.mem_cons] at h
      rcases h with h | h
      · exact Or.inr (by simp [h])
      · rcases ih h with h1 | h1
        · exact Or.inl h1
        · exact Or.inr (List.mem_cons_of_mem q h1)
    · simp only [hc, if_false, List.mem_cons] at h
      rcases h with h | h | h
      · exact Or.inl h
      · exact Or.inr (by simp [h])
      · exact Or.inr (List.mem_cons_of_mem q h)

theorem headKey_insertDesc (x : α × Nat) (l : List (α × Nat)) :
    headKey (insertDesc x l) = max x.2 (headKey l) := by
  cases l with
  | nil => simp [insertDesc, headKey]
  | cons q qs =>
    unfold insertDesc
    by_cases h : x.2 ≤ q.2
    · simp [h, headKey, Nat.max_eq_right h]
    · have h2 : q.2 ≤ x.2 := Nat.le_of_lt (Nat.lt_of_not_le h)
      simp [h, headKey, Nat.max_eq_left h2]

theorem foldl_insertDesc_length (l acc : List (α × Nat)) :
    (List.foldl (fun a x => insertDesc x a) acc l).length = acc.length + l.length := by
  induction l generalizing acc with
  | nil => rfl
  | cons x xs ih =>
    simp only [List.foldl_cons, ih, insertDesc_length, List.length_cons]
    omega

theorem foldl_insertDesc_mem {y : α × Nat} (l acc : List (α × Nat))
    (h : y ∈ List.foldl (fun a x => insertDesc x a) acc l) : y ∈ acc ∨ y ∈ l := by
  induction l generalizing acc with
  | nil => exact Or.inl h
  | cons x xs ih =>
    simp only [List.foldl_cons] at h
    rcases ih (insertDesc x acc) h with h1 | h1
    · rcases insertDesc_mem h1 with h2 | h2
      · exact Or.inr (by simp [h2])
      · exact Or.inl h2
    · exact Or.inr (List.mem_cons_of_mem x h1)

theorem foldl_insertDesc_headKey {q : α × Nat} (l acc : List (α × Nat))
    (h : q ∈ l ∨ q.2 ≤ headKey acc) :
    q.2 ≤ headKey (List.foldl (fun a x => insertDesc x a) acc l) := by
  induction l generalizing acc with
  | nil =>
    rcases h with h | h
    · exact absurd h (List.not_mem_nil q)
    · exact h
  | cons x xs ih =>
    simp only [List.foldl_cons]
    apply ih
    rcases h with h | h
    · rcases List.mem_cons.mp h with h1 | h1
      · right
        rw [headKey_insertDesc, h1]
        exact Nat.le_max_left _ _
      · exact Or.inl h1
    · right
      rw [headKey_insertDesc]
      exact Nat.le_trans h (Nat.le_max_right _ _)

/-- Members of the descending sort come from the input list. -/
theorem pySortDesc_mem {y : α × Nat} {l : List (α × Nat)}
    (h : y ∈ pySortDesc l) : y ∈ l := by
  rcases foldl_insertDesc_mem l [] h with h1 | h1
  · exact absurd h1 (List.not_mem_nil y)
  · exact h1

/-- The head of the descending sort has a key at least as large as every
input key. -/
theorem pySortDesc_headKey {q : α × Nat} {l : List (α × Nat)}
    (h : q ∈ l) : q.2 ≤ headKey (pySortDesc l) :=
  foldl_insertDesc_headKey l [] (Or.inl h)

theorem pySortDesc_length (l : List (α × Nat)) :
    (pySortDesc l).length = l.length := by
  simpa using foldl_insertDesc_length l []

/-! SaveDraftTool threading headers, gmail_tools.py lines 426 to 452 and
519 to 531. -/

/-- The dictionary returned by SaveDraftTool get latest thread info,
restricted to the two keys its caller reads. -/
structure LatestInfo where
  message_id : Option String
  references : Option String

/-- SaveDraftTool latest-thread-info selection (gmail_tools.py lines 426
to 452): with a truthy thread_messages list, sort it by date descending
and take the first message, returning its message_id (defaulted to the
empty string) together with the references of the thread_info dictionary;
otherwise return the thread_info dictionary itself. An unparseable truthy
date raises out of the sort; an empty sort result would raise an index
error. -/
def get_latest_thread_info (parse : String → Option Nat) (t : ThreadInfo) :
    Except Unit LatestInfo :=
  match t.thread_messages with
  | some msgs =>
    if msgs.isEmpty then Except.ok ⟨t.message_id, t.references⟩
    else
      match mapKeys parse msgs with
      | Except.error e => Except.error e
      | Except.ok pairs =>
        match pySortDesc pairs with
        | latest :: _ => Except.ok ⟨some (latest.1.message_id.getD ""), some (t.references.getD "")⟩
        | [] => Except.error ()
  | none => Except.ok ⟨t.message_id, t.references⟩

/-- References list built by SaveDraftTool (gmail_tools.py lines 522 to
527): split the truthy reference chain on whitespace, then append the
truthy latest message_id when it is not already a member. -/
def refsListOf (chain mid : String) : List String :=
  let refs0 := if chain.isEmpty then [] else pySplitWs chain
  if !mid.isEmpty && !(refs0.contains mid) then refs0 ++ [mid] else refs0

/-- References header set by SaveDraftTool (gmail_tools.py lines 528 to
529): present exactly when the references list is nonempty. -/
def refsHeaderOf (chain mid : String) : Option String :=
  if (refsListOf chain mid).isEmpty then none else some (joinSpace (refsListOf chain mid))

/-- In-Reply-To header set by SaveDraftTool (gmail_tools.py lines 530 to
531): present exactly when the latest message_id is truthy. -/
def inReplyToOf (mid : String) : Option String :=
  if mid.isEmpty then none else some mid

/-- Threading headers of the draft composed by SaveDraftTool run
(gmail_tools.py lines 519 to 531), as the pair (References, In-Reply-To);
both absent when no thread_info is given. -/
def buildThreadHeaders (parse : String → Option Nat) (tOpt : Option ThreadInfo) :
    Except Unit (Option String × Option String) :=
  match tOpt with
  | none => Except.ok (none, none)
  | some t =>
    (get_latest_thread_info parse t).map (fun latest =>
      (refsHeaderOf (latest.references.getD "") (latest.message_id.getD ""),
       inReplyToOf (latest.message_id.getD "")))

/-- Stand-in for email.utils.parsedate_to_datetime: parses exactly one
concrete RFC 2822 date, and returns none exactly where CPython raises. -/
def parseDemo (s : String) : Option Nat :=
  if s = "Mon, 15 Jan 2024 10:30:00 +0000" then some 1705314600 else none

/-- Thread message with no fields set: its message_id defaults to the
empty string. -/
def mEmptyId : ThreadMsg := ⟨some "old question", none, none⟩

/-- Thread context whose only thread message has no message_id. -/
def tNoMid : ThreadInfo := ⟨none, some [mEmptyId], none, none, none, none, none⟩

/-- C2 counterexample: for a thread context whose latest message has an
empty message_id, the saved draft carries no In-Reply-To header at all,
so the header does not equal the message_id of the most recent message
(the empty string); the References header is likewise absent. -/
theorem C2_empty_message_id_counterexample :
    buildThreadHeaders parseDemo (some tNoMid) = Except.ok (none, none) ∧
    get_latest_thread_info parseDemo tNoMid = Except.ok ⟨some "", some ""⟩ ∧
    (none : Option String) ≠ some (mEmptyId.message_id.getD "") :=
  ⟨rfl, rfl, by decide⟩

/-- Boolean success test on an Except value. -/
def exceptIsOk : Except ε α → Bool
  | Except.ok _ => true
  | Except.error _ => false

/-- When every date key is defined, key decoration succeeds and decorates
each message with its key value in order. -/
theorem mapKeys_ok (parse : String → Option Nat) :
    ∀ msgs : List ThreadMsg, (∀ m ∈ msgs, exceptIsOk (dateKey parse m) = true) →
    mapKeys parse msgs = Except.ok (msgs.map (fun m => (m, keyValD parse m))) := by
  intro msgs h
  induction msgs with
  | nil => rfl
  | cons m ms ih =>
    have hm := h m (List.mem_cons_self m ms)
    cases hdk : dateKey parse m with
    | error e => rw [hdk] at hm; simp [exceptIsOk] at hm
    | ok k =>
      have hrest := ih (fun m2 hm2 => h m2 (List.mem_cons_of_mem m hm2))
      have hkv : keyValD parse m = k := by simp [keyValD, hdk]
      simp [mapKeys, hdk, hrest, hkv, Except.map]

/-- C2 (amended): for every saved draft whose thread context holds a
nonempty thread_messages list all of whose truthy dates parse, there is a
latest-dated message m of the list (its date key is maximal) such that the
In-Reply-To header equals the message_id of m whenever that id is
nonempty (and is omitted when it is empty, rather than set to the root),
and the References header is the reference chain of the thread context
with the id of m appended when not already present, omitted when the
resulting list is empty. -/
theorem C2_threading_headers_latest (parse : String → Option Nat) (t : ThreadInfo)
    (msgs : List ThreadMsg)
    (hmsgs : t.thread_messages = some msgs) (hne : msgs ≠ [])
    (hkeys : ∀ m ∈ msgs, exceptIsOk (dateKey parse m) = true) :
    ∃ m, m ∈ msgs ∧ (∀ m2 ∈ msgs, keyValD parse m2 ≤ keyValD parse m) ∧
      buildThreadHeaders parse (some t) =
        Except.ok (refsHeaderOf (t.references.getD "") (m.message_id.getD ""),
                   inReplyToOf (m.message_id.getD "")) := by
  have hmk := mapKeys_ok parse msgs hkeys
  set pairs := msgs.map (fun m => (m, keyValD parse m)) with hpairs
  have hlen : (pySortDesc pairs).length = msgs.length := by
    rw [pySortDesc_length, hpairs, List.length_map]
  have hslen : 0 < (pySortDesc pairs).length := by
    rw [hlen]
    exact List.length_pos.mpr hne
  obtain ⟨latest, rest, hsort⟩ : ∃ a l, pySortDesc pairs = a :: l := by
    cases hs : pySortDesc pairs with
    | nil => rw [hs] at hslen; simp at hslen
    | cons a l => exact ⟨a, l, rfl⟩
  have hmemp : latest ∈ pairs :=
    pySortDesc_mem (by rw [hsort]; exact List.mem_cons_self _ _)
  obtain ⟨m, hmmem, hmeq⟩ := List.mem_map.mp hmemp
  have hm1 : latest.1 = m := by rw [← hmeq]
  have hm2k : latest.2 = keyValD parse m := by rw [← hmeq]
  refine ⟨m, hmmem, ?_, ?_⟩
  · intro m2 hmem2
    have h1 : (m2, keyValD parse m2) ∈ pairs := List.mem_map_of_mem _ hmem2
    have h2 := pySortDesc_headKey h1
    rw [hsort] at h2
    have h3 : headKey (latest :: rest) = latest.2 := rfl
    rw [h3, hm2k] at h2
    exact h2
  · have hie : msgs.isEmpty = false := by
      cases msgs with
      | nil => exact absurd rfl hne
      | cons a l => rfl
    simp only [buildThreadHeaders, get_latest_thread_info, hmsgs, hie, hmk,
      Bool.false_eq_true, if_false, ← hpairs, hsort, Except.map, hm1]
    simp [Option.getD]

/-- Thread message carrying the one date parseDemo parses. -/
def mNewer : ThreadMsg := ⟨some "question", some "Mon, 15 Jan 2024 10:30:00 +0000", some "<b@x>"⟩

/-- Thread message with no date: its key is the minimum. -/
def mOlder : ThreadMsg := ⟨some "question", none, some "<a@x>"⟩

/-- Thread context with two messages and an accumulated reference chain. -/
def tTwoMsgs : ThreadInfo :=
  ⟨none, some [mNewer, mOlder], some "<r1@x> <a@x>", none, none, none, none⟩

/-- C2 witness: the amended threading theorem applied to a concrete
two-message thread, all hypotheses discharged by evaluation. -/
theorem C2_threading_headers_latest_witness :
    ∃ m, m ∈ [mNewer, mOlder] ∧
      (∀ m2 ∈ [mNewer, mOlder], keyValD parseDemo m2 ≤ keyValD parseDemo m) ∧
      buildThreadHeaders parseDemo (some tTwoMsgs) =
        Except.ok (refsHeaderOf (tTwoMsgs.references.getD "") (m.message_id.getD ""),
                   inReplyToOf (m.message_id.getD "")) :=
  C2_threading_headers_latest parseDemo tTwoMsgs [mNewer, mOlder] rfl
    (by simp) (by decide)

/-- Thread message whose Date header is present but unparseable. -/
def mBadDate : ThreadMsg := ⟨none, some "not-a-date", none⟩

/-- C3: the thread sort raises on a message whose Date header is present
but unparseable (the key lambda calls the date parser inside its own
truthiness guard, so a parse failure raises instead of yielding the
minimum date), while a message with a missing date sorts fine as the
minimum; evaluated at the failing input. -/
theorem C3_unparseable_date_raises :
    sortThreadMessages parseDemo [mBadDate] = Except.error () ∧
    strTruthy mBadDate.date = true ∧
    parseDemo "not-a-date" = none ∧
    sortThreadMessages parseDemo [(⟨none, none, none⟩ : ThreadMsg)] =
      Except.ok [(⟨none, none, none⟩ : ThreadMsg)] :=
  ⟨rfl, rfl, rfl, rfl⟩

/-! SaveDraftTool body formatting, gmail_tools.py lines 342 to 353. -/

/-- Left-to-right scan replacing every occurrence of the signer
placeholder, with capital or small n in name, by Reon: the re.sub call at
gmail_tools.py line 345. Both placeholder literals are eleven characters
long, so the scan resumes after the match. -/
def substYourName : List Char → List Char
  | '[' :: 'Y' :: 'o' :: 'u' :: 'r' :: ' ' :: 'N' :: 'a' :: 'm' :: 'e' :: ']' :: rest =>
    "Reon".data ++ substYourName rest
  | '[' :: 'Y' :: 'o' :: 'u' :: 'r' :: ' ' :: 'n' :: 'a' :: 'm' :: 'e' :: ']' :: rest =>
    "Reon".data ++ substYourName rest
  | c :: cs => c :: substYourName cs
  | [] => []

/-- SaveDraftTool format body (gmail_tools.py lines 342 to 353): substitute
the placeholder, then append the signature (a single newline in the
source) only when no bracket-Your or bracket-your fragment remains. -/
def format_body (body : String) : String :=
  let b : String := ⟨substYourName body.data⟩
  if !(pyIn "[Your" b) && !(pyIn "[your" b) then b ++ "\n" else b

/-- C9 counterexample: a body containing a lowercase bracket-your fragment
is not matched by the placeholder pattern, yet it suppresses the signature
append, so the formatted result does not end with the signature at all. -/
theorem C9_signature_counterexample :
    format_body "[your name]" = "[your name]" ∧
    endsWithPy (format_body "[your name]") "\n" = false :=
  ⟨by decide, by decide⟩

/-- C9 (amended): after substituting every signer placeholder with the
signer identity, if the body retains no bracket-Your or bracket-your
fragment the signature is appended exactly once and the result ends with
it; if such a fragment remains, the body is returned unchanged with no
signature appended. -/
theorem C9_signature_append (body : String) :
    (pyIn "[Your" (⟨substYourName body.data⟩ : String) = false →
      pyIn "[your" (⟨substYourName body.data⟩ : String) = false →
      format_body body = (⟨substYourName body.data⟩ : String) ++ "\n" ∧
      endsWithPy (format_body body) "\n" = true) ∧
    ((pyIn "[Your" (⟨substYourName body.data⟩ : String) = true ∨
      pyIn "[your" (⟨substYourName body.data⟩ : String) = true) →
      format_body body = (⟨substYourName body.data⟩ : String)) := by
  constructor
  · intro h1 h2
    have hf : format_body body = (⟨substYourName body.data⟩ : String) ++ "\n" := by
      unfold format_body
      simp [h1, h2]
    exact ⟨hf, by rw [hf]; exact endsWith_newline_append _⟩
  · intro h
    unfold format_body
    rcases h with h | h <;> simp [h]

/-- C9 witness: a plain body with no placeholder gets exactly one appended
signature. -/
theorem C9_signature_append_witness :
    format_body "Hello" = (⟨substYourName "Hello".data⟩ : String) ++ "\n" ∧
    endsWithPy (format_body "Hello") "\n" = true :=
  (C9_signature_append "Hello").1 (by decide) (by decide)

/-! Header decoding, gmail_tools.py lines 26 to 43 and gmail_reader.py
lines 137 to 156. The parts list models the output of the stdlib
email.header.decode_header; the dec parameter models bytes.decode with
the named charset (none where CPython raises); the total parameter models
the utf-8 decode with replacement or ignore, which never raises. -/

/-- One decoded part of a header: raw bytes with an optional declared
charset, or an already decoded string. -/
inductive HeaderPart where
  | bytesPart (data : List Nat) (charset : Option String)
  | strPart (s : String)

/-- Decode of one part in decode_header_safe (gmail_tools.py lines 32 to
39): a truthy charset selects the named decode with replacement, otherwise
utf-8 with replacement; plain strings pass through. -/
def decodePartSafe (dec : String → List Nat → Option String) (u8r : List Nat → String) :
    HeaderPart → Option String
  | HeaderPart.bytesPart d cs => if strTruthy cs then dec (cs.getD "") d else some (u8r d)
  | HeaderPart.strPart s => some s

/-- Decode of one part in the reader decode header (gmail_reader.py lines
146 to 152): a truthy charset selects the strict named decode, otherwise
utf-8 ignoring errors; plain strings pass through. -/
def decodePartReader (dec : String → List Nat → Option String) (u8i : List Nat → String) :
    HeaderPart → Option String
  | HeaderPart.bytesPart d cs => if strTruthy cs then dec (cs.getD "") d else some (u8i d)
  | HeaderPart.strPart s => some s

/-- Sequential decode of all parts, stopping at the first raising decode,
as the Python for loop does. -/
def decodePartsWith (f : HeaderPart → Option String) : List HeaderPart → Option (List String)
  | [] => some []
  | p :: ps =>
    match f p with
    | none => none
    | some s => (decodePartsWith f ps).map (fun l => s :: l)

/-- decode_header_safe (gmail_tools.py lines 26 to 43): join the decoded
parts with spaces, falling back to the raw header when any decode raises. -/
def decode_header_safe (dec : String → List Nat → Option String) (u8r : List Nat → String)
    (raw : String) (parts : List HeaderPart) : String :=
  match decodePartsWith (decodePartSafe dec u8r) parts with
  | some l => joinSpace l
  | none => raw

/-- GmailReaderTool decode header (gmail_reader.py lines 137 to 156): an
empty header gives the empty string; otherwise join the decoded parts with
no separator, falling back to the raw header when any decode raises. -/
def decode_header_reader (dec : String → List Nat → Option String) (u8i : List Nat → String)
    (raw : String) (parts : List HeaderPart) : String :=
  if raw.isEmpty then ""
  else
    match decodePartsWith (decodePartReader dec u8i) parts with
    | some l => String.join l
    | none => raw

/-- C7: both header decoders are total: for every header, including
multi-part mixed-charset encoded words, the result is always a string:
the space or empty join of the per-part decodes, each encoded segment
decoded with its declared charset, when every part decodes; the raw header
when any decode fails; and for the reader, the empty string on an empty
header. No case raises. -/
theorem C7_decode_header_total (dec : String → List Nat → Option String)
    (u8r : List Nat → String) (raw : String) (parts : List HeaderPart) :
    ((∃ l, decodePartsWith (decodePartSafe dec u8r) parts = some l ∧
        decode_header_safe dec u8r raw parts = joinSpace l) ∨
      (decodePartsWith (decodePartSafe dec u8r) parts = none ∧
        decode_header_safe dec u8r raw parts = raw)) ∧
    ∀ (decS : String → List Nat → Option String) (u8i : List Nat → String),
      (raw.isEmpty = true ∧ decode_header_reader decS u8i raw parts = "") ∨
      (∃ l, decodePartsWith (decodePartReader decS u8i) parts = some l ∧
        decode_header_reader decS u8i raw parts = String.join l) ∨
      (decodePartsWith (decodePartReader decS u8i) parts = none ∧
        decode_header_reader decS u8i raw parts = raw) := by
  constructor
  · cases h : decodePartsWith (decodePartSafe dec u8r) parts with
    | some l => exact Or.inl ⟨l, rfl, by simp [decode_header_safe, h]⟩
    | none => exact Or.inr ⟨rfl, by simp [decode_header_safe, h]⟩
  · intro decS u8i
    by_cases hr : raw.isEmpty = true
    · exact Or.inl ⟨hr, by simp [decode_header_reader, hr]⟩
    · have hr2 : raw.isEmpty = false := by
        cases hb : raw.isEmpty
        · rfl
        · exact absurd hb hr
      cases h : decodePartsWith (decodePartReader decS u8i) parts with
      | some l =>
        exact Or.inr (Or.inl ⟨l, rfl, by simp [decode_header_reader, hr2, h]⟩)
      | none => exact Or.inr (Or.inr ⟨rfl, by simp [decode_header_reader, hr2, h]⟩)

/-! Body extraction, gmail_tools.py lines 184 to 206 and gmail_reader.py
lines 158 to 198. MIME parts are the leaves visited by walk; the decE
parameter models bytes.decode() strict (error where CPython raises, the
message text otherwise); decIgn models charset decode with errors ignored
(error only for an unknown codec); clean models clean_email_body, h2t
models the html-to-text helper, both total. -/

/-- One part of a multipart message as visited by walk. -/
structure MimePart where
  contentType : String
  contentDisposition : Option String
  charset : Option String
  payload : Option (List Nat)

/-- A decoded email message: multipart with its walked parts, or a single
part with its content type, charset and payload. -/
inductive EmailMessage where
  | multipart (parts : List MimePart)
  | single (contentType : String) (charset : Option String) (payload : Option (List Nat))

/-- Loop body of GmailToolBase extract body over multipart parts
(gmail_tools.py lines 187 to 200): a failed or absent payload decode gives
the empty string, text/plain parts append their text, text/html parts
append the cleaned text, parts with an attachment disposition or other
content types are skipped. -/
def extract_body_multi (decE : List Nat → Except String String) (clean : String → String) :
    List MimePart → String → String
  | [], body => body
  | p :: ps, body =>
    let email_body :=
      match p.payload with
      | none => ""
      | some d =>
        match decE d with
        | Except.ok s => s
        | Except.error _ => ""
    let cd := p.contentDisposition.getD "None"
    let body1 :=
      if p.contentType == "text/plain" && !(pyIn "attachment" cd) then body ++ email_body
      else if p.contentType == "text/html" && !(pyIn "attachment" cd) then body ++ clean email_body
      else body
    extract_body_multi decE clean ps body1

/-- GmailToolBase extract body (gmail_tools.py lines 184 to 206): multipart
messages accumulate their text parts; a non-multipart message decodes its
payload regardless of content type, yielding the cleaned text, or an error
string when the decode raises. -/
def extract_body (decE : List Nat → Except String String) (clean : String → String) :
    EmailMessage → String
  | EmailMessage.multipart parts => extract_body_multi decE clean parts ""
  | EmailMessage.single _ _ payload =>
    match payload with
    | none => "Error decoding body: AttributeError"
    | some d =>
      match decE d with
      | Except.ok s => clean s
      | Except.error e => "Error decoding body: " ++ e

/-- Loop of GmailReaderTool extract body over multipart parts
(gmail_reader.py lines 163 to 179): text/plain parts with a truthy payload
append the charset decode with errors ignored; text/html parts are used
only while the body is still empty; an unknown-codec decode raises. -/
def reader_extract_multi (decIgn : String → List Nat → Except String String)
    (h2t : String → String) : List MimePart → String → Except String String
  | [], body => Except.ok body
  | p :: ps, body =>
    let cd := p.contentDisposition.getD "None"
    let cs := if strTruthy p.charset then p.charset.getD "" else "utf-8"
    let pl := p.payload.getD []
    if p.contentType == "text/plain" && !(pyIn "attachment" cd) then
      if pl.isEmpty then reader_extract_multi decIgn h2t ps body
      else
        match decIgn cs pl with
        | Except.error e => Except.error e
        | Except.ok s => reader_extract_multi decIgn h2t ps (body ++ s)
    else if p.contentType == "text/html" && !(pyIn "attachment" cd) && body.isEmpty then
      if pl.isEmpty then reader_extract_multi decIgn h2t ps body
      else
        match decIgn cs pl with
        | Except.error e => Except.error e
        | Except.ok s => reader_extract_multi decIgn h2t ps (body ++ h2t s)
    else reader_extract_multi decIgn h2t ps body

/-- Single-part branch of GmailReaderTool extract body (gmail_reader.py
lines 180 to 192): only text/plain and text/html content types are
decoded; everything else leaves the body empty. -/
def reader_extract_single (decIgn : String → List Nat → Except String String)
    (h2t : String → String) (ct : String) (charset : Option String)
    (payload : Option (List Nat)) : Except String String :=
  let cs := if strTruthy charset then charset.getD "" else "utf-8"
  let pl := payload.getD []
  if ct == "text/plain" then
    if pl.isEmpty then Except.ok "" else decIgn cs pl
  else if ct == "text/html" then
    if pl.isEmpty then Except.ok "" else (decIgn cs pl).map h2t
  else Except.ok ""

/-- GmailReaderTool extract body (gmail_reader.py lines 158 to 198): the
loop result, with any raised exception caught and replaced by a fixed
error text, then stripped. -/
def reader_extract_body (decIgn : String → List Nat → Except String String)
    (h2t : String → String) : EmailMessage → String
  | EmailMessage.multipart parts =>
    stripStr
      (match reader_extract_multi decIgn h2t parts "" with
       | Except.ok b => b
       | Except.error _ => "Error extracting email content")
  | EmailMessage.single ct cs pl =>
    stripStr
      (match reader_extract_single decIgn h2t ct cs pl with
       | Except.ok b => b
       | Except.error _ => "Error extracting email content")

/-- A message offers no text part: no part (or the single content type) is
text/plain or text/html. -/
def noTextPart : EmailMessage → Bool
  | EmailMessage.multipart parts =>
    parts.all (fun p => !(p.contentType == "text/plain") && !(p.contentType == "text/html"))
  | EmailMessage.single ct _ _ => !(ct == "text/plain") && !(ct == "text/html")

/-- Strict ASCII decode stand-in for bytes.decode(): raises exactly on a
byte above 127. -/
def decDemo (d : List Nat) : Except String String :=
  if d.any (fun b => 127 < b) then Except.error "invalid start byte"
  else Except.ok (String.mk (d.map (fun b => Char.ofNat b)))

/-- C8 counterexample: a non-multipart message with no text part (an
application/pdf single part) whose payload does not decode makes
GmailToolBase extract body return an error string, not the empty string. -/
theorem C8_nontext_counterexample :
    extract_body decDemo (fun s => s)
        (EmailMessage.single "application/pdf" none (some [255])) =
      "Error decoding body: invalid start byte" ∧
    "Error decoding body: invalid start byte" ≠ "" :=
  ⟨by decide, by decide⟩

/-- C8 (amended): a multipart message with no text part yields the empty
string from GmailToolBase extract body, and every message with no text
part yields the empty string from GmailReaderTool extract body; but the
GmailToolBase extractor on a non-multipart message decodes the payload
regardless of content type, returning its cleaned text or an error string
when decoding fails. -/
theorem C8_empty_body_no_text (decE : List Nat → Except String String)
    (clean : String → String) (decIgn : String → List Nat → Except String String)
    (h2t : String → String) :
    (∀ parts : List MimePart,
      noTextPart (EmailMessage.multipart parts) = true →
      extract_body decE clean (EmailMessage.multipart parts) = "") ∧
    (∀ msg : EmailMessage, noTextPart msg = true →
      reader_extract_body decIgn h2t msg = "") := by
  have hmulti : ∀ parts : List MimePart, ∀ body : String,
      (∀ p ∈ parts, p.contentType ≠ "text/plain" ∧ p.contentType ≠ "text/html") →
      extract_body_multi decE clean parts body = body := by
    intro parts
    induction parts with
    | nil => intro body _; rfl
    | cons p ps ih =>
      intro body h
      have hp := h p (List.mem_cons_self p ps)
      have h1 : (p.contentType == "text/plain") = false := by
        simp [hp.1]
      have h2 : (p.contentType == "text/html") = false := by
        simp [hp.2]
      unfold extract_body_multi
      simp only [h1, h2, Bool.false_and, if_false]
      exact ih body (fun q hq => h q (List.mem_cons_of_mem p hq))
  have hreadermulti : ∀ parts : List MimePart, ∀ body : String,
      (∀ p ∈ parts, p.contentType ≠ "text/plain" ∧ p.contentType ≠ "text/html") →
      reader_extract_multi decIgn h2t parts body = Except.ok body := by
    intro parts
    induction parts with
    | nil => intro body _; rfl
    | cons p ps ih =>
      intro body h
      have hp := h p (List.mem_cons_self p ps)
      have h1 : (p.contentType == "text/plain") = false := by
        simp [hp.1]
      have h2 : (p.contentType == "text/html") = false := by
        simp [hp.2]
      unfold reader_extract_multi
      simp only [h1, h2, Bool.false_and, if_false]
      exact ih body (fun q hq => h q (List.mem_cons_of_mem p hq))
  have hconv : ∀ parts : List MimePart,
      noTextPart (EmailMessage.multipart parts) = true →
      ∀ p ∈ parts, p.contentType ≠ "text/plain" ∧ p.contentType ≠ "text/html" := by
    intro parts h p hp
    have := List.all_eq_true.mp h p hp
    constructor
    · intro hc
      simp [hc] at this
    · intro hc
      simp [hc] at this
  constructor
  · intro parts h
    exact hmulti parts "" (hconv parts h)
  · intro msg h
    cases msg with
    | multipart parts =>
      simp only [reader_extract_body]
      rw [hreadermulti parts "" (hconv parts h)]
      rfl
    | single ct cs pl =>
      simp only [noTextPart, Bool.and_eq_true, Bool.not_eq_true'] at h
      simp only [reader_extract_body, reader_extract_single, h.1, h.2, if_false]
      rfl

/-- C8 witness: the amended theorem evaluated on a one-part image
multipart message and a single-part octet-stream message. -/
theorem C8_empty_body_no_text_witness :
    extract_body decDemo (fun s => s)
      (EmailMessage.multipart [⟨"image/png", none, none, some [1, 2]⟩]) = "" ∧
    reader_extract_body (fun _ d => decDemo d) (fun s => s)
      (EmailMessage.single "application/octet-stream" none (some [1])) = "" :=
  ⟨(C8_empty_body_no_text decDemo (fun s => s) (fun _ d => decDemo d) (fun s => s)).1
      [⟨"image/png", none, none, some [1, 2]⟩] (by decide),
   (C8_empty_body_no_text decDemo (fun s => s) (fun _ d => decDemo d) (fun s => s)).2
      (EmailMessage.single "application/octet-stream" none (some [1])) (by decide)⟩

/-! SaveDraftTool run, gmail_tools.py lines 355 to 564. The IMAP session
is a backend record: the drafts folders discovered by the LIST scan, the
per-folder select result, the per-folder append outcome (error models a
raised exception, ok false a rejected append), and the per-folder
search-by-subject hit count. Raising in connect is an error connect value;
rendered strings omit the Python quote characters around interpolated
values and stand in fixed text for interpolated exception reprs. -/

/-- Abstract IMAP backend seen by SaveDraftTool. -/
structure SaveBackend where
  foundDraftsFolders : List String
  selectOk : String → Bool
  appendRes : String → Except String Bool
  searchHits : String → String → Nat

/-- The three folder names SaveDraftTool run tries to select, in order
(gmail_tools.py lines 466 to 480). -/
def draftsCandidates : List String := ["\"[Gmail]/Drafts\"", "[Gmail]/Drafts", "Drafts"]

/-- The five folder names the verification step searches, in order
(gmail_tools.py lines 394 to 400). -/
def verifyFolders : List String :=
  ["\"[Gmail]/Drafts\"", "Drafts", "DRAFTS", "\"[Google Mail]/Drafts\"", "[Gmail]/Drafts"]

/-- Folder loop of the verification step (gmail_tools.py lines 401 to
421): the first candidate that selects and has a search hit wins; any
per-folder failure just moves on. -/
def verifyGo (b : SaveBackend) (subject : String) : List String → Bool × Option String
  | [] => (false, none)
  | f :: fs =>
    if b.selectOk f && !(b.searchHits f subject == 0) then (true, some f)
    else verifyGo b subject fs

/-- SaveDraftTool verify draft saved (gmail_tools.py lines 390 to 424). -/
def verify_draft_saved (b : SaveBackend) (subject : String) : Bool × Option String :=
  verifyGo b subject verifyFolders

/-- Rendering of the Python list of discovered drafts folders in the
select-failure message (item quotes omitted). -/
def showFolderList (l : List String) : String :=
  "[" ++ String.intercalate ", " l ++ "]"

/-- SaveDraftTool run (gmail_tools.py lines 454 to 564), returning the
string handed back to the caller together with the ordered list of folders
appended to; an error value is an exception escaping the call. A failed
connect leaves the local variable mail unassigned, so the finally clause
raises NameError, discarding the pending return. -/
def runSaveDraft (connect : Except String Unit) (b : SaveBackend)
    (parse : String → Option Nat) (subject body recipient : String)
    (thread_info : Option ThreadInfo) : Except String (String × List String) :=
  match connect with
  | Except.error _ =>
    Except.error "NameError: local variable mail referenced before assignment"
  | Except.ok _ =>
    match draftsCandidates.find? b.selectOk with
    | none =>
      Except.ok ("Error: Could not select drafts folder. Available folders: " ++
        showFolderList b.foundDraftsFolders, [])
    | some drafts_folder =>
      let _bodyWithSignature := format_body body
      let subj := computeSubject thread_info subject
      match buildThreadHeaders parse thread_info with
      | Except.error _ => Except.ok ("Error saving draft: ValueError", [])
      | Except.ok _headers =>
        match b.appendRes drafts_folder with
        | Except.error e => Except.ok ("Error saving draft: " ++ e, [drafts_folder])
        | Except.ok false => Except.ok ("Error saving draft: NO", [drafts_folder])
        | Except.ok true =>
          match verify_draft_saved b subj with
          | (true, some folder) =>
            Except.ok ("VERIFIED: Draft email saved with subject: " ++ subj ++
              " in folder " ++ folder, [drafts_folder])
          | _ =>
            match b.appendRes "[Gmail]/All Mail" with
            | Except.ok true =>
              Except.ok ("Draft saved to All Mail with subject: " ++ subj ++
                " (flagged as draft)", [drafts_folder, "[Gmail]/All Mail"])
            | Except.ok false =>
              Except.ok
                ("WARNING: Draft save attempt returned NO, but verification failed. Please check your Gmail Drafts folder.",
                 [drafts_folder, "[Gmail]/All Mail"])
            | Except.error e =>
              Except.ok ("WARNING: Draft may not have been saved properly: " ++ e,
                [drafts_folder, "[Gmail]/All Mail"])

/-- A prefix of the left operand stays a prefix of an appended list. -/
theorem listStartsWith_append_of (p l1 l2 : List Char)
    (h : listStartsWith p l1 = true) : listStartsWith p (l1 ++ l2) = true := by
  induction p generalizing l1 with
  | nil => rfl
  | cons x xs ih =>
    cases l1 with
    | nil => simp [listStartsWith] at h
    | cons y ys =>
      simp only [listStartsWith, Bool.and_eq_true] at h
      simp only [List.cons_append, listStartsWith, Bool.and_eq_true]
      exact ⟨h.1, ih ys h.2⟩

/-- Backend whose drafts folder selects and accepts appends but whose
search-by-subject verification never finds anything. -/
def bC5 : SaveBackend :=
  ⟨["[Gmail]/Drafts"], fun f => f == "\"[Gmail]/Drafts\"",
   fun _ => Except.ok true, fun _ _ => 0⟩

/-- C5 counterexample: with the append accepted and verification finding
no draft in any candidate folder, a backend that also accepts the fallback
All Mail append makes save return a plain saved-notice string, not a
warning string. -/
theorem C5_unverified_counterexample :
    runSaveDraft (Except.ok ()) bC5 parseDemo "Subj" "Body" "r@x.com" none =
      Except.ok ("Draft saved to All Mail with subject: Subj (flagged as draft)",
        ["\"[Gmail]/Drafts\"", "[Gmail]/All Mail"]) ∧
    startsWithPy "Draft saved to All Mail with subject: Subj (flagged as draft)"
      "WARNING" = false :=
  ⟨rfl, by decide⟩

/-- C5 (amended): when a drafts folder selects, the append is accepted and
the verification search finds no draft in any candidate folder, the call
attempts exactly one fallback append into the All Mail area and returns a
string, never raising: a saved-to-All-Mail notice when the fallback append
is accepted, a warning string otherwise; and when verification does find
the draft, the call returns a verified result naming the folder. -/
theorem C5_unverified_warning (b : SaveBackend) (parse : String → Option Nat)
    (subject body recipient : String) (tOpt : Option ThreadInfo) (c : String)
    (hp : Option String × Option String)
    (hfind : draftsCandidates.find? b.selectOk = some c)
    (hhp : buildThreadHeaders parse tOpt = Except.ok hp)
    (happ : b.appendRes c = Except.ok true) :
    (verify_draft_saved b (computeSubject tOpt subject) = (false, none) →
      ∃ msg, runSaveDraft (Except.ok ()) b parse subject body recipient tOpt =
          Except.ok (msg, [c, "[Gmail]/All Mail"]) ∧
        ((b.appendRes "[Gmail]/All Mail" = Except.ok true ∧
            msg = "Draft saved to All Mail with subject: " ++
              computeSubject tOpt subject ++ " (flagged as draft)") ∨
         (b.appendRes "[Gmail]/All Mail" ≠ Except.ok true ∧
            startsWithPy msg "WARNING" = true))) ∧
    (∀ f, verify_draft_saved b (computeSubject tOpt subject) = (true, some f) →
      runSaveDraft (Except.ok ()) b parse subject body recipient tOpt =
        Except.ok ("VERIFIED: Draft email saved with subject: " ++
          computeSubject tOpt subject ++ " in folder " ++ f, [c])) := by
  constructor
  · intro hver
    cases hA : b.appendRes "[Gmail]/All Mail" with
    | ok tf =>
      cases tf with
      | true =>
        refine ⟨"Draft saved to All Mail with subject: " ++
          computeSubject tOpt subject ++ " (flagged as draft)", ?_, Or.inl ⟨rfl, rfl⟩⟩
        simp only [runSaveDraft, hfind, hhp, happ, hver, hA]
      | false =>
        refine ⟨"WARNING: Draft save attempt returned NO, but verification failed. Please check your Gmail Drafts folder.",
          ?_, Or.inr ⟨by simp, by decide⟩⟩
        simp only [runSaveDraft, hfind, hhp, happ, hver, hA]
    | error e =>
      refine ⟨"WARNING: Draft may not have been saved properly: " ++ e,
        ?_, Or.inr ⟨by simp, ?_⟩⟩
      · simp only [runSaveDraft, hfind, hhp, happ, hver, hA]
      · unfold startsWithPy
        rw [data_append]
        exact listStartsWith_append_of _ _ _ (by decide)
  · intro f hver
    simp only [runSaveDraft, hfind, hhp, happ, hver]

/-- C5 witness: the amended theorem instantiated on the concrete
no-verification backend, every hypothesis discharged by evaluation. -/
theorem C5_unverified_warning_witness :
    ∃ msg, runSaveDraft (Except.ok ()) bC5 parseDemo "Subj" "Body" "r@x.com" none =
        Except.ok (msg, ["\"[Gmail]/Drafts\"", "[Gmail]/All Mail"]) ∧
      ((bC5.appendRes "[Gmail]/All Mail" = Except.ok true ∧
          msg = "Draft saved to All Mail with subject: " ++
            computeSubject none "Subj" ++ " (flagged as draft)") ∨
       (bC5.appendRes "[Gmail]/All Mail" ≠ Except.ok true ∧
          startsWithPy msg "WARNING" = true)) :=
  (C5_unverified_warning bC5 parseDemo "Subj" "Body" "r@x.com" none
    "\"[Gmail]/Drafts\"" (none, none) rfl rfl rfl).1 rfl

/-- Backend on which no drafts folder candidate selects and the LIST scan
found nothing. -/
def bNoSelect : SaveBackend := ⟨[], fun _ => false, fun _ => Except.ok true, fun _ _ => 0⟩

/-- C6 counterexample: when no candidate selects, the error message
reports the drafts folders discovered by the LIST scan (here the empty
list), and does not mention the candidate names that were attempted:
Drafts is an attempted candidate yet does not occur in the message. -/
theorem C6_error_report_counterexample :
    runSaveDraft (Except.ok ()) bNoSelect parseDemo "Subj" "Body" "r@x.com" none =
      Except.ok ("Error: Could not select drafts folder. Available folders: []", []) ∧
    pyIn "Drafts" "Error: Could not select drafts folder. Available folders: []" = false ∧
    "Drafts" ∈ draftsCandidates :=
  ⟨rfl, by decide, by decide⟩

/-- C6 (amended): saving a draft tries the fixed ordered candidate list
quoted Gmail Drafts, unquoted Gmail Drafts, Drafts, and uses the first
whose selection succeeds (every append then targets it); when none
succeeds the call returns an error result reporting the drafts folders
discovered by the LIST scan, not the candidate list attempted. -/
theorem C6_folder_candidates (b : SaveBackend) (parse : String → Option Nat)
    (subject body recipient : String) (tOpt : Option ThreadInfo) :
    (draftsCandidates.find? b.selectOk = none →
      runSaveDraft (Except.ok ()) b parse subject body recipient tOpt =
        Except.ok ("Error: Could not select drafts folder. Available folders: " ++
          showFolderList b.foundDraftsFolders, [])) ∧
    (∀ c, draftsCandidates.find? b.selectOk = some c →
      (b.selectOk c = true ∧
        (c = "\"[Gmail]/Drafts\"" ∨
         (c = "[Gmail]/Drafts" ∧ b.selectOk "\"[Gmail]/Drafts\"" = false) ∨
         (c = "Drafts" ∧ b.selectOk "\"[Gmail]/Drafts\"" = false ∧
           b.selectOk "[Gmail]/Drafts" = false))) ∧
      ∃ s tr, runSaveDraft (Except.ok ()) b parse subject body recipient tOpt =
          Except.ok (s, tr) ∧ (tr = [] ∨ tr.head? = some c)) := by
  constructor
  · intro hfind
    simp only [runSaveDraft, hfind]
  · intro c hfind
    constructor
    · cases h1 : b.selectOk "\"[Gmail]/Drafts\"" with
      | true =>
        have he : draftsCandidates.find? b.selectOk = some "\"[Gmail]/Drafts\"" := by
          simp [draftsCandidates, List.find?_cons_of_pos, h1]
        rw [he] at hfind
        have hc : c = "\"[Gmail]/Drafts\"" := (Option.some.inj hfind).symm
        exact ⟨hc ▸ h1, Or.inl hc⟩
      | false =>
        cases h2 : b.selectOk "[Gmail]/Drafts" with
        | true =>
          have he : draftsCandidates.find? b.selectOk = some "[Gmail]/Drafts" := by
            simp [draftsCandidates, List.find?_cons_of_neg, List.find?_cons_of_pos, h1, h2]
          rw [he] at hfind
          have hc : c = "[Gmail]/Drafts" := (Option.some.inj hfind).symm
          exact ⟨hc ▸ h2, Or.inr (Or.inl ⟨hc, rfl⟩)⟩
        | false =>
          cases h3 : b.selectOk "Drafts" with
          | true =>
            have he : draftsCandidates.find? b.selectOk = some "Drafts" := by
              simp [draftsCandidates, List.find?_cons_of_neg, List.find?_cons_of_pos,
                h1, h2, h3]
            rw [he] at hfind
            have hc : c = "Drafts" := (Option.some.inj hfind).symm
            exact ⟨hc ▸ h3, Or.inr (Or.inr ⟨hc, rfl, rfl⟩)⟩
          | false =>
            have he : draftsCandidates.find? b.selectOk = none := by
              simp [draftsCandidates, List.find?_cons_of_neg, h1, h2, h3]
            rw [he] at hfind
            exact absurd hfind (by simp)
    · cases hh : buildThreadHeaders parse tOpt with
      | error u =>
        have he : runSaveDraft (Except.ok ()) b parse subject body recipient tOpt =
            Except.ok ("Error saving draft: ValueError", []) := by
          simp only [runSaveDraft, hfind, hh]
        exact ⟨_, _, he, Or.inl rfl⟩
      | ok hp =>
        cases ha : b.appendRes c with
        | error e =>
          have he : runSaveDraft (Except.ok ()) b parse subject body recipient tOpt =
              Except.ok ("Error saving draft: " ++ e, [c]) := by
            simp only [runSaveDraft, hfind, hh, ha]
          exact ⟨_, _, he, Or.inr rfl⟩
        | ok tf =>
          cases tf with
          | false =>
            have he : runSaveDraft (Except.ok ()) b parse subject body recipient tOpt =
                Except.ok ("Error saving draft: NO", [c]) := by
              simp only [runSaveDraft, hfind, hh, ha]
            exact ⟨_, _, he, Or.inr rfl⟩
          | true =>
            rcases hv : verify_draft_saved b (computeSubject tOpt subject) with ⟨vb, vf⟩
            cases vb with
            | true =>
              cases vf with
              | some f =>
                have he : runSaveDraft (Except.ok ()) b parse subject body recipient tOpt =
                    Except.ok ("VERIFIED: Draft email saved with subject: " ++
                      computeSubject tOpt subject ++ " in folder " ++ f, [c]) := by
                  simp only [runSaveDraft, hfind, hh, ha, hv]
                exact ⟨_, _, he, Or.inr rfl⟩
              | none =>
                cases hA : b.appendRes "[Gmail]/All Mail" with
                | ok tf2 =>
                  cases tf2 with
                  | true =>
                    have he : runSaveDraft (Except.ok ()) b parse subject body recipient tOpt =
                        Except.ok ("Draft saved to All Mail with subject: " ++
                          computeSubject tOpt subject ++ " (flagged as draft)",
                          [c, "[Gmail]/All Mail"]) := by
                      simp only [runSaveDraft, hfind, hh, ha, hv, hA]
                    exact ⟨_, _, he, Or.inr rfl⟩
                  | false =>
                    have he : runSaveDraft (Except.ok ()) b parse subject body recipient tOpt =
                        Except.ok ("WARNING: Draft save attempt returned NO, but verification failed. Please check your Gmail Drafts folder.",
                          [c, "[Gmail]/All Mail"]) := by
                      simp only [runSaveDraft, hfind, hh, ha, hv, hA]
                    exact ⟨_, _, he, Or.inr rfl⟩
                | error e =>
                  have he : runSaveDraft (Except.ok ()) b parse subject body recipient tOpt =
                      Except.ok ("WARNING: Draft may not have been saved properly: " ++ e,
                        [c, "[Gmail]/All Mail"]) := by
                    simp only [runSaveDraft, hfind, hh, ha, hv, hA]
                  exact ⟨_, _, he, Or.inr rfl⟩
            | false =>
              cases hA : b.appendRes "[Gmail]/All Mail" with
              | ok tf2 =>
                cases tf2 with
                | true =>
                  have he : runSaveDraft (Except.ok ()) b parse subject body recipient tOpt =
                      Except.ok ("Draft saved to All Mail with subject: " ++
                        computeSubject tOpt subject ++ " (flagged as draft)",
                        [c, "[Gmail]/All Mail"]) := by
                    simp only [runSaveDraft, hfind, hh, ha, hv, hA]
                  exact ⟨_, _, he, Or.inr rfl⟩
                | false =>
                  have he : runSaveDraft (Except.ok ()) b parse subject body recipient tOpt =
                      Except.ok ("WARNING: Draft save attempt returned NO, but verification failed. Please check your Gmail Drafts folder.",
                        [c, "[Gmail]/All Mail"]) := by
                    simp only [runSaveDraft, hfind, hh, ha, hv, hA]
                  exact ⟨_, _, he, Or.inr rfl⟩
              | error e =>
                have he : runSaveDraft (Except.ok ()) b parse subject body recipient tOpt =
                    Except.ok ("WARNING: Draft may not have been saved properly: " ++ e,
                      [c, "[Gmail]/All Mail"]) := by
                  simp only [runSaveDraft, hfind, hh, ha, hv, hA]
                exact ⟨_, _, he, Or.inr rfl⟩

/-- C6 witness: the amended theorem instantiated on the backend where no
candidate selects, the hypothesis discharged by evaluation. -/
theorem C6_folder_candidates_witness :
    runSaveDraft (Except.ok ()) bNoSelect parseDemo "S" "B" "r@x.com" none =
      Except.ok ("Error: Could not select drafts folder. Available folders: " ++
        showFolderList bNoSelect.foundDraftsFolders, []) :=
  (C6_folder_candidates bNoSelect parseDemo "S" "B" "r@x.com" none).1 rfl

/-- C10: when the connection step raises, SaveDraftTool run does not
return an error string: the finally clause references the never assigned
local variable mail, so the call terminates with an unhandled NameError;
and once the connection is established, every execution path returns a
string and never raises. -/
theorem C10_connect_failure_raises (e : String) (b : SaveBackend)
    (parse : String → Option Nat) (subject body recipient : String)
    (tOpt : Option ThreadInfo) :
    runSaveDraft (Except.error e) b parse subject body recipient tOpt =
      Except.error "NameError: local variable mail referenced before assignment" ∧
    exceptIsOk (runSaveDraft (Except.ok ()) b parse subject body recipient tOpt) = true := by
  constructor
  · rfl
  · cases hc : draftsCandidates.find? b.selectOk with
    | none => simp only [runSaveDraft, hc, exceptIsOk]
    | some c =>
      cases hh : buildThreadHeaders parse tOpt with
      | error u => simp only [runSaveDraft, hc, hh, exceptIsOk]
      | ok hp =>
        cases ha : b.appendRes c with
        | error e2 => simp only [runSaveDraft, hc, hh, ha, exceptIsOk]
        | ok tf =>
          cases tf with
          | false => simp only [runSaveDraft, hc, hh, ha, exceptIsOk]
          | true =>
            rcases hv : verify_draft_saved b (computeSubject tOpt subject) with ⟨vb, vf⟩
            cases vb with
            | true =>
              cases vf with
              | some f => simp only [runSaveDraft, hc, hh, ha, hv, exceptIsOk]
              | none =>
                cases hA : b.appendRes "[Gmail]/All Mail" with
                | ok tf2 =>
                  cases tf2 <;> simp only [runSaveDraft, hc, hh, ha, hv, hA, exceptIsOk]
                | error e2 => simp only [runSaveDraft, hc, hh, ha, hv, hA, exceptIsOk]
            | false =>
              cases hA : b.appendRes "[Gmail]/All Mail" with
              | ok tf2 =>
                cases tf2 <;> simp only [runSaveDraft, hc, hh, ha, hv, hA, exceptIsOk]
              | error e2 => simp only [runSaveDraft, hc, hh, ha, hv, hA, exceptIsOk]
